import Mathlib

/-!
Shallow embedding of src/app-builder/publish-informational-card.js.

The JavaScript action publishes an informational card: it validates its
invocation parameters, fetches a content-fragment record, resolves static
tokens in the textual fields while preserving profile tokens, and writes the
assembled payload together with a Cache-Control header.

Modelling decisions, each tied to the source:

* Strings are Lean strings over explicit character lists; the two regex
  literals of the file are compiled by hand into character-list scanners,
  following the leftmost-match and greedy semantics of the regex engine.
* PROFILE_TOKEN_REGEX (line 9) is a module-level regex created with the g
  flag and used through RegExp.test (line 16), so it carries a mutable
  lastIndex between calls: a successful test moves lastIndex to the end of
  the match, a failed test resets it to 0, and every test starts its search
  at the current lastIndex.  The embedding threads this single Nat of
  hidden state explicitly through every function that can reach the test.
* resolveStaticTokens (lines 11-22) takes an Option String so that the JS
  falsy guard of line 12 (an undefined or empty input is returned
  unchanged) is represented; the replace-callback loop of lines 14-21 is
  resolveScan, driven by structural fuel (one unit per match, so an initial
  fuel of length + 1 is never exhausted: every match consumes at least five
  characters of the remaining text).
* JS numbers are modelled by Option Int with none standing for NaN;
  strToNumber models Number() on the string fragment the record can carry
  (integer numerals, possibly signed and surrounded by whitespace, and the
  empty string); every other string is NaN, matching Number applied to a
  non-numeric string such as abc.
* main (lines 55-107) is modelled as a pure function of the invocation
  parameters, the record the author fetch would return, and the regex
  state.  The wrappers fetchAemJson and putAemJson are network glue; the
  write putAemJson would issue (URL, payload, Cache-Control header of line
  44) is reified in the WriteCall carried by a published outcome, and the
  thrown-error paths of the wrappers are not needed by any claim.
-/

namespace PublishCard

/-- Whitespace characters recognised by the regex class for whitespace and
by String.trim, restricted to the ASCII whitespace the record fields use. -/
def wsChar (c : Char) : Bool :=
  c == ' ' || c == '\t' || c == '\n' || c == '\r'

/-- JS String.trim on a character list (line 15, the trim of the captured
token name). -/
def trimWs (l : List Char) : List Char :=
  ((l.dropWhile wsChar).reverse.dropWhile wsChar).reverse

/-- Lines 17-18: Object.prototype.hasOwnProperty.call(staticTokens, trimmed)
followed by the property read, on the static table modelled as an
association list with distinct keys. -/
def tblLookup : List (String × String) → List Char → Option String
  | [], _ => none
  | (k, v) :: rest, name => if k.toList = name then some v else tblLookup rest name

/-- Attempt of the replace-regex body after an opening double brace: the
greedy character class excluding a closing brace (at least one character),
then the two closing braces.  Returns the captured run (whitespace still
attached, exactly as the match substring carries it) and the characters
after the match. -/
def parseTok (l : List Char) : Option (List Char × List Char) :=
  let content := l.takeWhile (fun c => c != '}')
  let rest := l.dropWhile (fun c => c != '}')
  if content = [] then none
  else
    match rest with
    | '}' :: '}' :: r => some (content, r)
    | _ => none

/-- Match of the replace regex of line 14 exactly at the head of the list. -/
def tokAt : List Char → Option (List Char × List Char)
  | '{' :: '{' :: r => parseTok r
  | _ => none

/-- Leftmost match of the replace regex of line 14: the engine tries every
position from the left.  Returns the text before the match, the inner run
of the match and the text after it. -/
def findToken : List Char → Option (List Char × List Char × List Char)
  | [] => none
  | c :: r =>
    match tokAt (c :: r) with
    | some (content, rest) => some ([], content, rest)
    | none => (findToken r).map (fun x => (c :: x.1, x.2.1, x.2.2))

/-- Match of PROFILE_TOKEN_REGEX (line 9) exactly at the head of the list:
two opening braces, optional whitespace, the literal profile-dot, at least
one character that is not a closing brace, two closing braces.  Returns the
length of the match. -/
def profMatchLen (l : List Char) : Option Nat :=
  match l with
  | '{' :: '{' :: r =>
    let ws := r.takeWhile wsChar
    let r2 := r.dropWhile wsChar
    if ("profile.".toList).isPrefixOf r2 then
      let r3 := r2.drop 8
      let body := r3.takeWhile (fun c => c != '}')
      let r4 := r3.dropWhile (fun c => c != '}')
      if body = [] then none
      else
        match r4 with
        | '}' :: '}' :: _ => some (2 + ws.length + 8 + body.length + 2)
        | _ => none
    else none
  | _ => none

/-- End position of the first PROFILE_TOKEN_REGEX match in the list. -/
def profFindEnd : List Char → Option Nat
  | [] => none
  | c :: r =>
    match profMatchLen (c :: r) with
    | some len => some len
    | none => (profFindEnd r).map (· + 1)

/-- RegExp.test on the shared PROFILE_TOKEN_REGEX (line 16): the search
starts at lastIndex; success returns true and moves lastIndex to the end of
the match, failure returns false and resets lastIndex to 0. -/
def profTest (s : List Char) (li : Nat) : Bool × Nat :=
  match profFindEnd (List.drop li s) with
  | some e => (true, li + e)
  | none => (false, 0)

/-- The callback loop of the replace on lines 14-21: find the leftmost
remaining match, consult PROFILE_TOKEN_REGEX.test (threading its
lastIndex), otherwise the static table, and continue after the match. -/
def resolveScan (tbl : List (String × String)) : Nat → List Char → Nat → List Char × Nat
  | 0, l, li => (l, li)
  | fuel + 1, l, li =>
    match findToken l with
    | none => (l, li)
    | some (pre, content, rest) =>
      let mstr := '{' :: '{' :: (content ++ ['}', '}'])
      let res := profTest mstr li
      let rep :=
        if res.1 then mstr
        else
          match tblLookup tbl (trimWs content) with
          | some v => v.toList
          | none => mstr
      let out := resolveScan tbl fuel rest res.2
      (pre ++ (rep ++ out.1), out.2)

/-- Lines 11-22.  The input is an Option String so that the falsy guard of
line 12 is represented: an absent or empty input is returned unchanged
without running the scan.  The second component is the lastIndex of the
shared PROFILE_TOKEN_REGEX after the call. -/
def resolveStaticTokens (input : Option String) (tbl : List (String × String))
    (li : Nat) : Option String × Nat :=
  match input with
  | none => (none, li)
  | some s =>
    if s = "" then (some s, li)
    else
      let r := resolveScan tbl (s.length + 1) s.toList li
      (some (String.mk r.1), r.2)

/-- Scalar JSON values the cacheTTL element carries in the modelled
fragment (line 84 reads the value of the cacheTTL element). -/
inductive JSVal where
  | num (n : Int)
  | str (s : String)
deriving DecidableEq

/-- JS truthiness on the modelled scalar fragment. -/
def jsTruthy : JSVal → Bool
  | .num n => n != 0
  | .str s => s != ""

/-- Value of a run of decimal digits. -/
def digitsToNat (l : List Char) : Nat :=
  l.foldl (fun a c => a * 10 + (c.toNat - 48)) 0

/-- JS Number() on the modelled string fragment: surrounding whitespace is
dropped, the empty or all-whitespace string converts to 0, an optionally
signed run of decimal digits converts to that integer, and every other
string is NaN (none), matching Number on a non-numeric string. -/
def strToNumber (s : String) : Option Int :=
  let t := trimWs s.toList
  if t = [] then some 0
  else if t.all Char.isDigit then some (Int.ofNat (digitsToNat t))
  else
    match t with
    | '-' :: d =>
      if d ≠ [] ∧ d.all Char.isDigit = true then some (-Int.ofNat (digitsToNat d))
      else none
    | '+' :: d =>
      if d ≠ [] ∧ d.all Char.isDigit = true then some (Int.ofNat (digitsToNat d))
      else none
    | _ => none

/-- Line 84: Number applied to the cacheTTL value defaulted through the
falsy-or operator to 86400, as an Option Int with none standing for NaN. -/
def resolveTTL (v : Option JSVal) : Option Int :=
  match v with
  | none => some 86400
  | some x =>
    if jsTruthy x then
      match x with
      | .num n => some n
      | .str s => strToNumber s
    else some 86400

/-- Rendering of the TTL into the Cache-Control template literal of line
44; JS prints the NaN produced by a bad TTL as the string NaN. -/
def jsNumToString : Option Int → String
  | none => "NaN"
  | some n => toString n

/-- Invocation parameters destructured on lines 62-69; an absent parameter
is none, and staticTokens defaults to the empty table. -/
structure Params where
  cfPath : Option String
  authorHost : Option String
  publishHost : Option String
  authorAccessToken : Option String
  publishAccessToken : Option String
  staticTokens : List (String × String)
deriving DecidableEq

/-- The value of each element of the fetched record (lines 78-93 read the
value of each element); textual elements are strings, cacheTTL is a scalar
JSVal, and a missing element or value is none. -/
structure Elements where
  cardId : Option String
  headline : Option String
  body : Option String
  image : Option String
  ctaLabel : Option String
  ctaAction : Option String
  termsText : Option String
  cacheTTL : Option JSVal
deriving DecidableEq

/-- JS falsiness of an optional string (the guards of lines 71 and 80 and
the falsy-or defaults of lines 90 and 92): absent or empty. -/
def falsyStr : Option String → Bool
  | none => true
  | some s => s == ""

/-- Line 90: the image value defaulted through the falsy-or operator to
null.  none models the JSON null the payload carries when the image value
is absent or empty; the field itself is always present in the payload. -/
def imageVal : Option String → Option String
  | none => none
  | some s => if s = "" then none else some s

/-- Line 92: the ctaAction value defaulted through the falsy-or operator to
the literal browser. -/
def ctaActionVal : Option String → String
  | none => "browser"
  | some s => if s = "" then "browser" else s

/-- The payload object assembled on lines 86-95. -/
structure Payload where
  cardId : String
  headline : Option String
  body : Option String
  image : Option String
  ctaLabel : Option String
  ctaAction : String
  termsText : Option String
  cacheTTL : Option Int
deriving DecidableEq

/-- The destination write putAemJson would issue (lines 38-47 and 97-98):
the publish URL, the payload and the Cache-Control header of line 44. -/
structure WriteCall where
  url : String
  payload : Payload
  cacheControl : String
deriving DecidableEq

/-- Outcome of one invocation of main: the early returns of lines 71-73 and
80-82 perform no write; the published outcome carries the write of line
98. -/
inductive Outcome where
  | badRequest
  | unprocessable
  | published (w : WriteCall)
deriving DecidableEq

/-- The statusCode of the returned action result (lines 72, 81 and 101). -/
def Outcome.statusCode : Outcome → Nat
  | .badRequest => 400
  | .unprocessable => 422
  | .published _ => 200

/-- The destination write performed by the invocation, if any. -/
def Outcome.write : Outcome → Option WriteCall
  | .published w => some w
  | _ => none

/-- Lines 84-98 once the record has passed the cardId guard: TTL
resolution, payload assembly resolving the four textual fields in
object-literal order while threading the shared regex state, and the
destination write. -/
def publishStep (p : Params) (f : Elements) (li : Nat) : Outcome × Nat :=
  let cid := f.cardId.getD ""
  let ttl := resolveTTL f.cacheTTL
  let r1 := resolveStaticTokens f.headline p.staticTokens li
  let r2 := resolveStaticTokens f.body p.staticTokens r1.2
  let r3 := resolveStaticTokens f.ctaLabel p.staticTokens r2.2
  let r4 := resolveStaticTokens f.termsText p.staticTokens r3.2
  (Outcome.published
    { url := p.publishHost.getD "" ++ "/content/cards/" ++ cid ++ ".json"
      payload :=
        { cardId := cid
          headline := r1.1
          body := r2.1
          image := imageVal f.image
          ctaLabel := r3.1
          ctaAction := ctaActionVal f.ctaAction
          termsText := r4.1
          cacheTTL := ttl }
      cacheControl := "public, max-age=" ++ jsNumToString ttl ++ ", immutable" },
   r4.2)

/-- Lines 55-107.  The fetched record is passed as the value the author
fetch would return; the guard of line 71 precedes the fetch, so a bad
request outcome does not depend on that argument.  The second component is
the lastIndex of the shared PROFILE_TOKEN_REGEX after the invocation. -/
def main (p : Params) (f : Elements) (li : Nat) : Outcome × Nat :=
  if falsyStr p.cfPath || falsyStr p.authorHost || falsyStr p.publishHost then
    (Outcome.badRequest, li)
  else if falsyStr f.cardId then
    (Outcome.unprocessable, li)
  else publishStep p f li

/-- The scan of an empty text is a no-op for every fuel and regex state. -/
theorem resolveScan_nil (tbl : List (String × String)) (fuel li : Nat) :
    resolveScan tbl fuel [] li = ([], li) := by
  cases fuel with
  | zero => rfl
  | succ n => rfl

/-- When the replace regex finds no match, the scan returns the text and
the regex state unchanged: the callback, and with it the test, never
runs. -/
theorem resolveScan_noTok (tbl : List (String × String)) (fuel : Nat)
    (l : List Char) (li : Nat) (h : findToken l = none) :
    resolveScan tbl fuel l li = (l, li) := by
  cases fuel with
  | zero => rfl
  | succ n => simp only [resolveScan, h]

/-- The take of a run all of whose characters satisfy the predicate stops
exactly at the first character that does not. -/
theorem takeWhile_append_all {p : Char → Bool} :
    ∀ (xs : List Char) (y : Char) (ys : List Char),
      (∀ x ∈ xs, p x = true) → p y = false →
      List.takeWhile p (xs ++ y :: ys) = xs := by
  intro xs
  induction xs with
  | nil =>
    intro y ys _ hy
    simp only [List.nil_append, List.takeWhile_cons, hy]
    simp
  | cons a l ih =>
    intro y ys hall hy
    have ha : p a = true := hall a (List.mem_cons_self a l)
    simp only [List.cons_append, List.takeWhile_cons, ha, if_true]
    exact congrArg (a :: ·) (ih y ys (fun x hx => hall x (List.mem_cons_of_mem a hx)) hy)

/-- The drop counterpart of the previous lemma. -/
theorem dropWhile_append_all {p : Char → Bool} :
    ∀ (xs : List Char) (y : Char) (ys : List Char),
      (∀ x ∈ xs, p x = true) → p y = false →
      List.dropWhile p (xs ++ y :: ys) = y :: ys := by
  intro xs
  induction xs with
  | nil =>
    intro y ys _ hy
    simp only [List.nil_append, List.dropWhile_cons, hy]
    simp
  | cons a l ih =>
    intro y ys hall hy
    have ha : p a = true := hall a (List.mem_cons_self a l)
    simp only [List.cons_append, List.dropWhile_cons, ha, if_true]
    exact ih y ys (fun x hx => hall x (List.mem_cons_of_mem a hx)) hy

/-- A lone token whose inner run is non-empty and free of closing braces is
the single leftmost match of the replace regex, with nothing before or
after it. -/
theorem findToken_single (content : List Char) (hne : content ≠ [])
    (hnb : ∀ c ∈ content, (c != '}') = true) :
    findToken ('{' :: '{' :: (content ++ ['}', '}'])) = some ([], content, []) := by
  have ht := @takeWhile_append_all (fun c => c != '}') content '}' ['}'] hnb (by decide)
  have hd := @dropWhile_append_all (fun c => c != '}') content '}' ['}'] hnb (by decide)
  simp only [findToken, tokAt, parseTok, ht, hd, if_neg hne]

/-- A list with no profile match has none in its tail either. -/
theorem profFindEnd_cons_none {c : Char} {r : List Char}
    (h : profFindEnd (c :: r) = none) : profFindEnd r = none := by
  cases hm : profMatchLen (c :: r) with
  | some len => exact absurd h (by simp [profFindEnd, hm])
  | none =>
    simp only [profFindEnd, hm] at h
    cases he : profFindEnd r with
    | none => rfl
    | some e => rw [he] at h; simp at h

/-- A list with no profile match has none after dropping a prefix: the
search of the test cannot succeed from any start position. -/
theorem profFindEnd_drop :
    ∀ (n : Nat) (l : List Char), profFindEnd l = none →
      profFindEnd (List.drop n l) = none := by
  intro n
  induction n with
  | zero => intro l h; simpa using h
  | succ m ih =>
    intro l h
    cases l with
    | nil => simpa using h
    | cons c r =>
      rw [List.drop_succ_cons]
      exact ih r (profFindEnd_cons_none h)

/-- On a match substring containing no profile match, the test fails from
every lastIndex and resets the state to 0. -/
theorem profTest_of_none (s : List Char) (h : profFindEnd s = none) (li : Nat) :
    profTest s li = (false, 0) := by
  simp only [profTest, profFindEnd_drop li s h]

/-- If the leftmost match of the text contains no profile match, the failed
test resets the shared state, so the whole scan is independent of the
incoming lastIndex. -/
theorem resolveScan_reset (tbl : List (String × String)) (fuel : Nat)
    (l : List Char) (li : Nat) (pre c r : List Char)
    (hf : findToken l = some (pre, c, r))
    (hp : profFindEnd ('{' :: '{' :: (c ++ ['}', '}'])) = none) :
    resolveScan tbl (fuel + 1) l li = resolveScan tbl (fuel + 1) l 0 := by
  simp only [resolveScan, hf, profTest_of_none _ hp]

/-- One controlled step of the scan at a known leftmost match. -/
theorem resolveScan_step (tbl : List (String × String)) (fuel : Nat)
    (l : List Char) (li : Nat) (pre content rest : List Char)
    (hf : findToken l = some (pre, content, rest)) :
    resolveScan tbl (fuel + 1) l li =
      (pre ++
        ((if (profTest ('{' :: '{' :: (content ++ ['}', '}'])) li).1 then
            '{' :: '{' :: (content ++ ['}', '}'])
          else
            match tblLookup tbl (trimWs content) with
            | some v => v.toList
            | none => '{' :: '{' :: (content ++ ['}', '}'])) ++
          (resolveScan tbl fuel rest
            (profTest ('{' :: '{' :: (content ++ ['}', '}'])) li).2).1),
       (resolveScan tbl fuel rest
         (profTest ('{' :: '{' :: (content ++ ['}', '}'])) li).2).2) := by
  simp only [resolveScan, hf]

/-- Once both guards pass, main is the publish step. -/
theorem main_happy (p : Params) (f : Elements) (li : Nat)
    (h1 : falsyStr p.cfPath = false) (h2 : falsyStr p.authorHost = false)
    (h3 : falsyStr p.publishHost = false) (h4 : falsyStr f.cardId = false) :
    main p f li = publishStep p f li := by
  simp [main, h1, h2, h3, h4]

/-- Invocation parameters of the worked examples: all required parameters
present, with a static table binding the env-brand token. -/
def cupParams : Params :=
  { cfPath := some "/content/dam/cards/personal-cup"
    authorHost := some "https://author.example"
    publishHost := some "https://publish.example"
    authorAccessToken := some "author-token"
    publishAccessToken := some "publish-token"
    staticTokens := [("env.brand", "Acme")] }

/-- The fetched record of the end-to-end example. -/
def cupRecord : Elements :=
  { cardId := some "cup"
    headline := some "Hi \x7b\x7benv.brand\x7d\x7d, \x7b\x7bprofile.name\x7d\x7d"
    body := none, image := none, ctaLabel := none, ctaAction := none
    termsText := none, cacheTTL := some (JSVal.num 3600) }

/-- A fetched record whose cacheTTL value is the non-numeric string abc. -/
def abcTTLRecord : Elements :=
  { cardId := some "cup", headline := none, body := none, image := none
    ctaLabel := none, ctaAction := none, termsText := none
    cacheTTL := some (JSVal.str "abc") }

/-- A fetched record with no TTL field at all. -/
def noTTLRecord : Elements :=
  { cardId := some "cup", headline := none, body := none, image := none
    ctaLabel := none, ctaAction := none, termsText := none, cacheTTL := none }

/-- A fetched record lacking the cardId element. -/
def noCardRecord : Elements :=
  { cardId := none, headline := some "Hello", body := none, image := none
    ctaLabel := none, ctaAction := none, termsText := none, cacheTTL := none }

/-- A fetched record with a non-empty image value. -/
def imgRecord : Elements :=
  { cardId := some "cup", headline := none, body := none
    image := some "https://img.example/cup.png"
    ctaLabel := none, ctaAction := none, termsText := none, cacheTTL := none }

/-- Invocation parameters whose destination host is absent. -/
def badParams : Params :=
  { cfPath := some "/content/dam/cards/personal-cup"
    authorHost := some "https://author.example"
    publishHost := none
    authorAccessToken := some "author-token"
    publishAccessToken := some "publish-token"
    staticTokens := [] }

/-- The write issued for noTTLRecord under cupParams. -/
def noTTLWrite : WriteCall :=
  { url := "https://publish.example/content/cards/cup.json"
    payload :=
      { cardId := "cup", headline := none, body := none, image := none
        ctaLabel := none, ctaAction := "browser", termsText := none
        cacheTTL := some 86400 }
    cacheControl := "public, max-age=86400, immutable" }

/-- The write issued for imgRecord under cupParams. -/
def imgWrite : WriteCall :=
  { url := "https://publish.example/content/cards/cup.json"
    payload :=
      { cardId := "cup", headline := none, body := none
        image := some "https://img.example/cup.png"
        ctaLabel := none, ctaAction := "browser", termsText := none
        cacheTTL := some 86400 }
    cacheControl := "public, max-age=86400, immutable" }

/-- C1: the claim says a profile-namespaced token is never substituted,
even when the static table has a colliding key and regardless of how many
profile tokens appear or how often the resolver ran before.  The code
refutes it: the shared PROFILE_TOKEN_REGEX keeps its lastIndex between
tests, so of two identical profile tokens in one text the second fails the
test and is substituted from the colliding key. -/
theorem c1_profile_token_leak :
    (resolveStaticTokens (some "\x7b\x7bprofile.x\x7d\x7d \x7b\x7bprofile.x\x7d\x7d")
        [("profile.x", "LEAK")] 0).1
      = some "\x7b\x7bprofile.x\x7d\x7d LEAK" ∧
    some "\x7b\x7bprofile.x\x7d\x7d LEAK"
      ≠ some "\x7b\x7bprofile.x\x7d\x7d \x7b\x7bprofile.x\x7d\x7d" := by
  decide

/-- C2: the claim says two runs of the resolver on the same text and table
produce the same output.  The code refutes it: a first run on a profile
token leaves the shared regex lastIndex at 16, so the immediately repeated
run on the very same input substitutes the token the first run had
preserved. -/
theorem c2_resolver_nondeterminism :
    (resolveStaticTokens (some "\x7b\x7bprofile.name\x7d\x7d")
        [("profile.name", "Alice")] 0).1 = some "\x7b\x7bprofile.name\x7d\x7d" ∧
    (resolveStaticTokens (some "\x7b\x7bprofile.name\x7d\x7d")
        [("profile.name", "Alice")]
        (resolveStaticTokens (some "\x7b\x7bprofile.name\x7d\x7d")
          [("profile.name", "Alice")] 0).2).1 = some "Alice" ∧
    (some "\x7b\x7bprofile.name\x7d\x7d" : Option String) ≠ some "Alice" := by
  decide

/-- C3: the claim says applying the resolver to its own output with the
same table equals applying it once whenever no replacement value contains
token syntax.  The code refutes it: the table value 42 contains no braces,
yet the second application substitutes the profile token the first had
preserved, because the first left the shared regex lastIndex at 14. -/
theorem c3_resolver_not_idempotent :
    (resolveStaticTokens (some "\x7b\x7bprofile.id\x7d\x7d")
        [("profile.id", "42")] 0).1 = some "\x7b\x7bprofile.id\x7d\x7d" ∧
    (resolveStaticTokens
        (resolveStaticTokens (some "\x7b\x7bprofile.id\x7d\x7d")
          [("profile.id", "42")] 0).1
        [("profile.id", "42")]
        (resolveStaticTokens (some "\x7b\x7bprofile.id\x7d\x7d")
          [("profile.id", "42")] 0).2).1 = some "42" ∧
    (some "42" : Option String) ≠ some "\x7b\x7bprofile.id\x7d\x7d" := by
  decide

/-- C4 fails as stated: with the non-numeric TTL value abc the resolved TTL
is NaN (none), not the default 86400, because line 84 defaults only falsy
values before Number is applied; the publish still succeeds, with a
max-age of NaN in the cache directive. -/
theorem c4_ttl_counterexample :
    ((main cupParams abcTTLRecord 0).1.write.map fun w => w.payload.cacheTTL)
      = some none ∧
    ((main cupParams abcTTLRecord 0).1.write.map fun w => w.payload.cacheTTL)
      ≠ some (some 86400) ∧
    (main cupParams abcTTLRecord 0).1.statusCode = 200 ∧
    ((main cupParams abcTTLRecord 0).1.write.map fun w => w.cacheControl)
      = some "public, max-age=NaN, immutable" := by
  decide

/-- C4 amended: if the TTL field is absent or falsy (absent, empty string
or zero), the resolved TTL is the default 86400; TTL resolution never
causes the publish to fail — whenever the parameter and cardId guards
pass, the outcome is a successful write for every TTL value — but a truthy
non-numeric string yields the Number conversion (NaN for a non-numeral)
rather than the default. -/
theorem c4_ttl_amended (p : Params) (f : Elements) (li : Nat)
    (h1 : falsyStr p.cfPath = false) (h2 : falsyStr p.authorHost = false)
    (h3 : falsyStr p.publishHost = false) (h4 : falsyStr f.cardId = false) :
    (main p f li).1.statusCode = 200 ∧
    ∀ w, (main p f li).1 = Outcome.published w →
      ((f.cacheTTL = none ∨ (∃ v, f.cacheTTL = some v ∧ jsTruthy v = false)) →
        w.payload.cacheTTL = some 86400) ∧
      (∀ s, f.cacheTTL = some (JSVal.str s) → jsTruthy (JSVal.str s) = true →
        w.payload.cacheTTL = strToNumber s) := by
  rw [main_happy p f li h1 h2 h3 h4]
  refine ⟨rfl, ?_⟩
  intro w hw
  simp only [publishStep] at hw
  rw [Outcome.published.injEq] at hw
  subst hw
  constructor
  · rintro (h | ⟨v, hv, htr⟩)
    · show resolveTTL f.cacheTTL = some 86400
      rw [h]
      rfl
    · show resolveTTL f.cacheTTL = some 86400
      rw [hv]
      simp [resolveTTL, htr]
  · intro s hs htr
    show resolveTTL f.cacheTTL = strToNumber s
    rw [hs]
    simp [resolveTTL, htr]

/-- Witness for the amended C4 at a concrete record with no TTL field. -/
theorem c4_ttl_amended_witness :
    (main cupParams noTTLRecord 0).1.statusCode = 200 ∧
    (main cupParams noTTLRecord 0).1 = Outcome.published noTTLWrite ∧
    noTTLWrite.payload.cacheTTL = some 86400 := by
  have hpub : (main cupParams noTTLRecord 0).1 = Outcome.published noTTLWrite := by
    decide
  have h := c4_ttl_amended cupParams noTTLRecord 0 (by decide) (by decide)
    (by decide) (by decide)
  exact ⟨h.1, hpub, (h.2 noTTLWrite hpub).1 (Or.inl rfl)⟩

/-- C5: for the end-to-end record and static table, the published payload
headline resolves the env-brand token while preserving the profile token,
and the write carries a cache directive containing a max-age of 3600 — in
every state of the shared regex, since its first, non-profile match resets
that state. -/
theorem c5_end_to_end (li : Nat) :
    ∃ w : WriteCall, (main cupParams cupRecord li).1 = Outcome.published w ∧
      w.payload.headline = some "Hi Acme, \x7b\x7bprofile.name\x7d\x7d" ∧
      ∃ a b : String, w.cacheControl = a ++ "max-age=3600" ++ b := by
  have hne : ¬ ("Hi \x7b\x7benv.brand\x7d\x7d, \x7b\x7bprofile.name\x7d\x7d" = "") := by
    decide
  have hf : findToken
      (String.toList "Hi \x7b\x7benv.brand\x7d\x7d, \x7b\x7bprofile.name\x7d\x7d")
      = some ("Hi ".toList, "env.brand".toList,
          ", \x7b\x7bprofile.name\x7d\x7d".toList) := by decide
  have hp : profFindEnd ('{' :: '{' :: ("env.brand".toList ++ ['}', '}'])) = none := by
    decide
  have hH : resolveStaticTokens
      (some "Hi \x7b\x7benv.brand\x7d\x7d, \x7b\x7bprofile.name\x7d\x7d")
      [("env.brand", "Acme")] li
      = (some "Hi Acme, \x7b\x7bprofile.name\x7d\x7d", 16) := by
    simp only [resolveStaticTokens, if_neg hne]
    rw [resolveScan_reset _ _ _ _ _ _ _ hf hp]
    decide
  refine ⟨{ url := "https://publish.example/content/cards/cup.json"
            payload :=
              { cardId := "cup"
                headline := some "Hi Acme, \x7b\x7bprofile.name\x7d\x7d"
                body := none, image := none, ctaLabel := none
                ctaAction := "browser", termsText := none, cacheTTL := some 3600 }
            cacheControl := "public, max-age=3600, immutable" },
    ?_, rfl, "public, ", ", immutable", by decide⟩
  rw [main_happy cupParams cupRecord li (by decide) (by decide) (by decide)
    (by decide)]
  simp only [publishStep, cupParams, cupRecord]
  rw [hH]
  decide

/-- C6: on text in which the replace regex finds no match the resolver is
the identity, for every table and every regex state (left untouched), and
so is the no-op on an absent input. -/
theorem c6_identity_on_token_free (t : String) (tbl : List (String × String))
    (li : Nat) (h : findToken t.toList = none) :
    resolveStaticTokens (some t) tbl li = (some t, li) ∧
    resolveStaticTokens none tbl li = (none, li) := by
  refine ⟨?_, rfl⟩
  by_cases he : t = ""
  · subst he; rfl
  · simp only [resolveStaticTokens, if_neg he]
    rw [resolveScan_noTok tbl _ _ li h]
    rfl

/-- Witness for C6 on concrete token-free text, table and state. -/
theorem c6_identity_witness :
    resolveStaticTokens (some "plain text, no tokens") [("x", "y")] 7
      = (some "plain text, no tokens", 7) :=
  (c6_identity_on_token_free "plain text, no tokens" [("x", "y")] 7 (by decide)).1

/-- C7: a token whose trimmed name is absent from the static table and not
profile-namespaced is left unchanged in the output rather than erroring,
for every table and every regex state. -/
theorem c7_unknown_token_unchanged (content : List Char)
    (tbl : List (String × String)) (li : Nat)
    (hne : content ≠ [])
    (hnb : ∀ c ∈ content, (c != '}') = true)
    (hkey : tblLookup tbl (trimWs content) = none)
    (hns : ("profile.".toList).isPrefixOf (trimWs content) = false) :
    (resolveStaticTokens
        (some (String.mk ('{' :: '{' :: (content ++ ['}', '}'])))) tbl li).1
      = some (String.mk ('{' :: '{' :: (content ++ ['}', '}']))) := by
  have hne' : ¬ (String.mk ('{' :: '{' :: (content ++ ['}', '}'])) = "") := by
    intro hcon
    have hl : ('{' :: '{' :: (content ++ ['}', '}'])) = ([] : List Char) :=
      congrArg String.data hcon
    exact absurd hl (by simp)
  have hstep := resolveScan_step tbl (('{' :: '{' :: (content ++ ['}', '}'])).length)
      ('{' :: '{' :: (content ++ ['}', '}'])) li [] content []
      (findToken_single content hne hnb)
  simp only [resolveScan_nil, List.append_nil, List.nil_append, hkey, ite_self] at hstep
  simp only [resolveStaticTokens, if_neg hne', String.toList, String.length]
  rw [hstep]

/-- Witness for C7 at the unknown token of the spec, the empty table and a
fresh regex. -/
theorem c7_unknown_token_witness :
    (resolveStaticTokens (some "\x7b\x7bunknown\x7d\x7d")
        ([] : List (String × String)) 0).1 = some "\x7b\x7bunknown\x7d\x7d" := by
  have h := c7_unknown_token_unchanged ("unknown".toList) [] 0 (by decide)
    (by decide) (by decide) (by decide)
  have e : String.mk ('{' :: '{' :: ("unknown".toList ++ ['}', '}']))
      = "\x7b\x7bunknown\x7d\x7d" := by decide
  rw [e] at h
  exact h

/-- C8: with valid parameters and a fetched record whose cardId is missing
or empty, main returns the unprocessable-entity status 422 (distinct from
the 400 of missing parameters) and performs no destination write, in every
regex state. -/
theorem c8_missing_cardId (p : Params) (f : Elements) (li : Nat)
    (h1 : falsyStr p.cfPath = false) (h2 : falsyStr p.authorHost = false)
    (h3 : falsyStr p.publishHost = false) (h4 : falsyStr f.cardId = true) :
    main p f li = (Outcome.unprocessable, li) ∧
    (main p f li).1.statusCode = 422 ∧
    (main p f li).1.write = none := by
  have hm : main p f li = (Outcome.unprocessable, li) := by
    simp [main, h1, h2, h3, h4]
  exact ⟨hm, by rw [hm]; rfl, by rw [hm]; rfl⟩

/-- Witness for C8 at concrete parameters and record. -/
theorem c8_missing_cardId_witness :
    main cupParams noCardRecord 5 = (Outcome.unprocessable, 5) ∧
    (main cupParams noCardRecord 5).1.statusCode = 422 ∧
    (main cupParams noCardRecord 5).1.write = none :=
  c8_missing_cardId cupParams noCardRecord 5 (by decide) (by decide) (by decide)
    (by decide)

/-- C9: when the source location, source host or destination host is
absent or empty, main returns the client-error status 400, performs no
write, and its outcome does not depend on the fetched record at all — the
model of performing no source fetch. -/
theorem c9_missing_params (p : Params) (f g : Elements) (li : Nat)
    (h : falsyStr p.cfPath = true ∨ falsyStr p.authorHost = true ∨
      falsyStr p.publishHost = true) :
    main p f li = (Outcome.badRequest, li) ∧
    (main p f li).1.statusCode = 400 ∧
    (main p f li).1.write = none ∧
    main p f li = main p g li := by
  have hm : ∀ e : Elements, main p e li = (Outcome.badRequest, li) := by
    intro e
    rcases h with h | h | h <;> simp [main, h]
  exact ⟨hm f, by rw [hm f]; rfl, by rw [hm f]; rfl, by rw [hm f, hm g]⟩

/-- Witness for C9 at parameters missing the destination host, shown on
two different fetched records. -/
theorem c9_missing_params_witness :
    main badParams noCardRecord 0 = (Outcome.badRequest, 0) ∧
    main badParams noCardRecord 0 = main badParams cupRecord 0 := by
  have h := c9_missing_params badParams noCardRecord cupRecord 0
    (Or.inr (Or.inr (by decide)))
  exact ⟨h.1, h.2.2.2⟩

/-- C10: in every successfully assembled payload the image field is the
verbatim image value when that value is a non-empty string, and exactly
the JSON null (modelled none; the field itself is always present in the
payload) when the value is absent or empty; and it is never passed through
the token resolver — it is the same whatever static table and regex state
the transformer runs with. -/
theorem c10_image_passthrough (p : Params) (f : Elements) (li : Nat)
    (h1 : falsyStr p.cfPath = false) (h2 : falsyStr p.authorHost = false)
    (h3 : falsyStr p.publishHost = false) (h4 : falsyStr f.cardId = false) :
    ∀ w, (main p f li).1 = Outcome.published w →
      w.payload.image = imageVal f.image ∧
      ((f.image = none ∨ f.image = some "") → w.payload.image = none) ∧
      (∀ s, f.image = some s → s ≠ "" → w.payload.image = some s) ∧
      (∀ (tbl : List (String × String)) (li' : Nat) (w' : WriteCall),
        (main { p with staticTokens := tbl } f li').1 = Outcome.published w' →
          w'.payload.image = w.payload.image) := by
  rw [main_happy p f li h1 h2 h3 h4]
  intro w hw
  simp only [publishStep] at hw
  rw [Outcome.published.injEq] at hw
  subst hw
  refine ⟨rfl, ?_, ?_, ?_⟩
  · rintro (h | h)
    · show imageVal f.image = none
      rw [h]
      rfl
    · show imageVal f.image = none
      rw [h]
      simp [imageVal]
  · intro s hs hs'
    show imageVal f.image = some s
    rw [hs]
    simp [imageVal, hs']
  · intro tbl li' w' hw'
    have hq := main_happy { p with staticTokens := tbl } f li' h1 h2 h3 h4
    rw [hq] at hw'
    simp only [publishStep] at hw'
    rw [Outcome.published.injEq] at hw'
    subst hw'
    rfl

/-- Witness for C10 at a record with a non-empty image value containing no
tokens and resolved under a non-empty static table. -/
theorem c10_image_passthrough_witness :
    (main cupParams imgRecord 0).1 = Outcome.published imgWrite ∧
    imgWrite.payload.image = some "https://img.example/cup.png" ∧
    imgWrite.payload.image = imageVal imgRecord.image := by
  have hpub : (main cupParams imgRecord 0).1 = Outcome.published imgWrite := by
    decide
  have h := (c10_image_passthrough cupParams imgRecord 0 (by decide) (by decide)
    (by decide) (by decide)) imgWrite hpub
  exact ⟨hpub, by decide, h.1⟩

end PublishCard
